import Mathlib

/-!
Verification of the jet-discharge integration step in `effluent/jet.py`.

The Python module defines three functions:
* `pipe_discharge_single_timestep(dt, t, m, c, rho, u, v, w, h, b, x, y, z, ua, va, rho_a)`
  advances one jet state by one Euler step, and returns the tuple
  `(t_new, m_new, c_new, rho_new, u_new, v_new, w_new, h_new, b_new, x_new, y_new, z_new)`;
* `pipe_discharge()` returns `jet(None, None)`;
* `jet(time, density)` ignores both arguments and returns a dataset with an
  empty `time` coordinate and an empty `density` variable.

The embedding below models the Python floating-point arithmetic with real
numbers.  Lean division is total with `x / 0 = 0`; places where the Python
code divides by a quantity that can be zero (the jet speed `vel`, the updated
mass `m_new`, the updated density `rho_new`, the updated thickness `h_new`)
are therefore places where the real-valued model returns a definite value
while IEEE floating point would produce `inf`/`NaN`.  The relevant theorems
note this explicitly.
-/

namespace Effluent

/-- Result tuple of `pipe_discharge_single_timestep`, with the fields named as
the local variables of the Python function are. -/
structure JetStepResult where
  t_new : ℝ
  m_new : ℝ
  c_new : ℝ
  rho_new : ℝ
  u_new : ℝ
  v_new : ℝ
  w_new : ℝ
  h_new : ℝ
  b_new : ℝ
  x_new : ℝ
  y_new : ℝ
  z_new : ℝ

/-- Ambient vertical velocity, `wa = 0` in the source. -/
def wa : ℝ := 0

/-- Acceleration of gravity, `g = 9.81` in the source. -/
def g : ℝ := 9.81

/-- Entrainment coefficient, `alpha_s = np.sqrt(2) * 0.057` in the source. -/
noncomputable def alpha_s : ℝ := Real.sqrt 2 * 0.057

/-- Jet speed, `vel = np.sqrt(u * u + v * v + w * w)` in the source. -/
noncomputable def vel (u v w : ℝ) : ℝ := Real.sqrt (u * u + v * v + w * w)

/-- Velocity difference in jet direction,
`delta_u = vel - np.dot([ua, va, wa], [u, v, w]) / vel` in the source. -/
noncomputable def delta_u (u v w ua va : ℝ) : ℝ :=
  vel u v w - (ua * u + va * v + wa * w) / vel u v w

/-- Entrained mass over one step,
`dm = 2 * np.pi * alpha_s * b * h * delta_u * dt` in the source. -/
noncomputable def dm (dt u v w h b ua va : ℝ) : ℝ :=
  2 * Real.pi * alpha_s * b * h * delta_u u v w ua va * dt

/-- Embedding of `pipe_discharge_single_timestep` from `effluent/jet.py`,
line by line.  Note that the source computes
`w_new = (m * w + m_new * ((rho_new - rho_a) / rho_new) * g * dt)` with no
division by `m_new`. -/
noncomputable def pipe_discharge_single_timestep
    (dt t m c rho u v w h b x y z ua va rho_a : ℝ) : JetStepResult :=
  let t_new := t + dt
  let m_new := m + dm dt u v w h b ua va
  let rho_new := (m * rho + dm dt u v w h b ua va * rho_a) / m_new
  let c_new := m * c / m_new
  let u_new := (m * u + dm dt u v w h b ua va * ua) / m_new
  let v_new := (m * v + dm dt u v w h b ua va * va) / m_new
  let w_new := m * w + m_new * ((rho_new - rho_a) / rho_new) * g * dt
  let vel_new := Real.sqrt (u_new * u_new + v_new * v_new + w_new * w_new)
  let h_new := (vel_new / vel u v w) * h
  let b_new := Real.sqrt (m_new / (rho_new * Real.pi * h_new))
  { t_new := t_new, m_new := m_new, c_new := c_new, rho_new := rho_new,
    u_new := u_new, v_new := v_new, w_new := w_new, h_new := h_new,
    b_new := b_new, x_new := x + u_new * dt, y_new := y + v_new * dt,
    z_new := z + w_new * dt }

/-- Dataset returned by `jet`: a `density` data variable and a `time`
coordinate (dimensions and attributes of the xarray objects carry no data and
are omitted). -/
structure JetDataset where
  density : List ℝ
  time : List ℝ

/-- Embedding of `jet(time, density)` from `effluent/jet.py`: both arguments
are ignored and a dataset with empty `density` and empty `time` is returned. -/
def jet (time density : Option (List ℝ)) : JetDataset :=
  { density := [], time := [] }

/-- Embedding of `pipe_discharge()` from `effluent/jet.py`: returns
`jet(None, None)`. -/
def pipe_discharge : JetDataset := jet none none

end Effluent

namespace Effluent

/-- Claim C5: with nonzero jet speed `vel` and ambient vertical velocity fixed
at 0, the step returns mass `m + Δm` with
`Δm = 2π · α · b · h · (vel − (ua·u + va·v)/vel) · dt` and `α = √2 × 0.057`. -/
theorem C5_entrainment (dt t m c rho u v w h b x y z ua va rho_a : ℝ)
    (hv : vel u v w ≠ 0) :
    (pipe_discharge_single_timestep dt t m c rho u v w h b x y z ua va rho_a).m_new
      = m + 2 * Real.pi * (Real.sqrt 2 * 0.057) * b * h
          * (vel u v w - (ua * u + va * v) / vel u v w) * dt := by
  simp only [pipe_discharge_single_timestep, dm, delta_u, alpha_s, wa]
  ring

/-- Witness for C5 at `u = 1, v = 0, w = 0` (jet speed 1). -/
theorem C5_entrainment_witness :
    vel 1 0 0 ≠ 0 ∧
    (pipe_discharge_single_timestep 1 0 100 1 1025 1 0 0 1 1 0 0 0 0 0 1000).m_new
      = 100 + 2 * Real.pi * (Real.sqrt 2 * 0.057) * 1 * 1
          * (vel 1 0 0 - (0 * 1 + 0 * 0) / vel 1 0 0) * 1 := by
  have hv : vel 1 0 0 ≠ 0 := by
    simp [vel]
  exact ⟨hv, C5_entrainment 1 0 100 1 1025 1 0 0 1 1 0 0 0 0 0 1000 hv⟩

/-- Claim C6: with `new_mass = m + Δm ≠ 0`, the step returns the mass-weighted
mixtures `new_density = (m·ρ + Δm·ρₐ)/new_mass`, `new_tracer = m·c/new_mass`,
`new_u = (m·u + Δm·ua)/new_mass`, `new_v = (m·v + Δm·va)/new_mass`. -/
theorem C6_inmixing (dt t m c rho u v w h b x y z ua va rho_a : ℝ)
    (hm : m + dm dt u v w h b ua va ≠ 0) :
    (pipe_discharge_single_timestep dt t m c rho u v w h b x y z ua va rho_a).rho_new
        = (m * rho + dm dt u v w h b ua va * rho_a) / (m + dm dt u v w h b ua va)
      ∧ (pipe_discharge_single_timestep dt t m c rho u v w h b x y z ua va rho_a).c_new
        = m * c / (m + dm dt u v w h b ua va)
      ∧ (pipe_discharge_single_timestep dt t m c rho u v w h b x y z ua va rho_a).u_new
        = (m * u + dm dt u v w h b ua va * ua) / (m + dm dt u v w h b ua va)
      ∧ (pipe_discharge_single_timestep dt t m c rho u v w h b x y z ua va rho_a).v_new
        = (m * v + dm dt u v w h b ua va * va) / (m + dm dt u v w h b ua va) :=
  ⟨rfl, rfl, rfl, rfl⟩

/-- Witness for C6 at a state with radius `b = 0`, where `Δm = 0` and the
updated mass is the old mass `1 ≠ 0`. -/
theorem C6_inmixing_witness :
    (1 : ℝ) + dm 1 1 0 0 1 0 0 0 ≠ 0 ∧
    (pipe_discharge_single_timestep 1 0 1 1 1000 1 0 0 1 0 0 0 0 0 0 1025).rho_new
      = (1 * 1000 + dm 1 1 0 0 1 0 0 0 * 1025) / (1 + dm 1 1 0 0 1 0 0 0) := by
  have hm : (1 : ℝ) + dm 1 1 0 0 1 0 0 0 ≠ 0 := by
    norm_num [dm]
  exact ⟨hm, (C6_inmixing 1 0 1 1 1000 1 0 0 1 0 0 0 0 0 0 1025 hm).1⟩

/-- Claim C9: with `new_mass = m + Δm ≠ 0`, the product of mass and tracer is
invariant: `new_mass · new_tracer = m · c`. -/
theorem C9_tracer_invariant (dt t m c rho u v w h b x y z ua va rho_a : ℝ)
    (hm : m + dm dt u v w h b ua va ≠ 0) :
    (pipe_discharge_single_timestep dt t m c rho u v w h b x y z ua va rho_a).m_new
      * (pipe_discharge_single_timestep dt t m c rho u v w h b x y z ua va rho_a).c_new
      = m * c := by
  show (m + dm dt u v w h b ua va) * (m * c / (m + dm dt u v w h b ua va)) = m * c
  field_simp

/-- Witness for C9 at a state with radius `b = 0`, where `Δm = 0`. -/
theorem C9_tracer_invariant_witness :
    (1 : ℝ) + dm 1 1 0 0 1 0 0 0 ≠ 0 ∧
    (pipe_discharge_single_timestep 1 0 1 1 1000 1 0 0 1 0 0 0 0 0 0 1025).m_new
      * (pipe_discharge_single_timestep 1 0 1 1 1000 1 0 0 1 0 0 0 0 0 0 1025).c_new
      = 1 * 1 := by
  have hm : (1 : ℝ) + dm 1 1 0 0 1 0 0 0 ≠ 0 := by
    norm_num [dm]
  exact ⟨hm, C9_tracer_invariant 1 0 1 1 1000 1 0 0 1 0 0 0 0 0 0 1025 hm⟩

/-- Claim C10: `pipe_discharge()` returns a dataset with empty `time` and
empty `density`, and `jet` returns this same empty dataset for every pair of
arguments. -/
theorem C10_empty_dataset :
    pipe_discharge.time = [] ∧ pipe_discharge.density = [] ∧
    ∀ time density : Option (List ℝ), jet time density = pipe_discharge :=
  ⟨rfl, rfl, fun _ _ => rfl⟩

theorem sqrt_two_mul_self : Real.sqrt 2 * Real.sqrt 2 = 2 :=
  Real.mul_self_sqrt (by norm_num)

theorem sqrt_two_pos : (0 : ℝ) < Real.sqrt 2 :=
  Real.sqrt_pos.mpr (by norm_num)

theorem sqrt_two_gt : (1.414 : ℝ) < Real.sqrt 2 := by
  nlinarith [sqrt_two_mul_self, Real.sqrt_nonneg 2]

theorem sqrt_two_lt : Real.sqrt 2 < 1.415 := by
  nlinarith [sqrt_two_mul_self, Real.sqrt_nonneg 2]

/-- Claim C7: if `delta_u ≥ 0` and `b`, `h`, `dt` are non-negative, the
returned mass is at least the input mass. -/
theorem C7_mass_monotone (dt t m c rho u v w h b x y z ua va rho_a : ℝ)
    (hd : 0 ≤ delta_u u v w ua va) (hb : 0 ≤ b) (hh : 0 ≤ h) (hdt : 0 ≤ dt) :
    m ≤ (pipe_discharge_single_timestep dt t m c rho u v w h b x y z ua va rho_a).m_new := by
  show m ≤ m + dm dt u v w h b ua va
  have hA : (0 : ℝ) ≤ 2 * Real.pi * alpha_s := by
    unfold alpha_s
    positivity
  have h0 : 0 ≤ dm dt u v w h b ua va :=
    mul_nonneg (mul_nonneg (mul_nonneg (mul_nonneg hA hb) hh) hd) hdt
  linarith

/-- Witness for C7 at a state moving through still ambient fluid, where
`delta_u` equals the jet speed and is non-negative. -/
theorem C7_mass_monotone_witness :
    0 ≤ delta_u 1 0 0 0 0 ∧ (0 : ℝ) ≤ 1 ∧
    (100 : ℝ) ≤ (pipe_discharge_single_timestep 1 0 100 1 1025 1 0 0 1 1 0 0 0 0 0 1000).m_new := by
  have hd : 0 ≤ delta_u 1 0 0 0 0 := by
    norm_num [delta_u, wa, vel]
  exact ⟨hd, by norm_num,
    C7_mass_monotone 1 0 100 1 1025 1 0 0 1 1 0 0 0 0 0 1000 hd
      (by norm_num) (by norm_num) (by norm_num)⟩

theorem delta_u_self (u v : ℝ) (hv : vel u v 0 ≠ 0) : delta_u u v 0 u v = 0 := by
  have hnn : (0 : ℝ) ≤ u * u + v * v + 0 * 0 := by
    nlinarith [mul_self_nonneg u, mul_self_nonneg v]
  have hsq : vel u v 0 * vel u v 0 = u * u + v * v + 0 * 0 :=
    Real.mul_self_sqrt hnn
  unfold delta_u wa
  rw [← hsq, mul_div_assoc, div_self hv, mul_one, sub_self]

/-- Claim C2 (amended): with strictly positive mass, nonzero jet speed and
zero vertical velocity, an ambient sample matching the jet's horizontal
velocity and density leaves mass, density, tracer, horizontal velocity and
(zero) vertical velocity unchanged. -/
theorem C2_amended (dt t m c rho u v h b x y z : ℝ)
    (hm : 0 < m) (hv : vel u v 0 ≠ 0) :
    (pipe_discharge_single_timestep dt t m c rho u v 0 h b x y z u v rho).m_new = m
    ∧ (pipe_discharge_single_timestep dt t m c rho u v 0 h b x y z u v rho).rho_new = rho
    ∧ (pipe_discharge_single_timestep dt t m c rho u v 0 h b x y z u v rho).c_new = c
    ∧ (pipe_discharge_single_timestep dt t m c rho u v 0 h b x y z u v rho).u_new = u
    ∧ (pipe_discharge_single_timestep dt t m c rho u v 0 h b x y z u v rho).v_new = v
    ∧ (pipe_discharge_single_timestep dt t m c rho u v 0 h b x y z u v rho).w_new = 0 := by
  have hm0 : m ≠ 0 := ne_of_gt hm
  have hdm : dm dt u v 0 h b u v = 0 := by
    unfold dm
    rw [delta_u_self u v hv]
    ring
  refine ⟨?_, ?_, ?_, ?_, ?_, ?_⟩
  · show m + dm dt u v 0 h b u v = m
    rw [hdm]; ring
  · show (m * rho + dm dt u v 0 h b u v * rho) / (m + dm dt u v 0 h b u v) = rho
    rw [hdm]
    field_simp
  · show m * c / (m + dm dt u v 0 h b u v) = c
    rw [hdm]
    field_simp
  · show (m * u + dm dt u v 0 h b u v * u) / (m + dm dt u v 0 h b u v) = u
    rw [hdm]
    field_simp
  · show (m * v + dm dt u v 0 h b u v * v) / (m + dm dt u v 0 h b u v) = v
    rw [hdm]
    field_simp
  · show m * 0 + (m + dm dt u v 0 h b u v) *
        (((m * rho + dm dt u v 0 h b u v * rho) / (m + dm dt u v 0 h b u v) - rho) /
          ((m * rho + dm dt u v 0 h b u v * rho) / (m + dm dt u v 0 h b u v))) * g * dt = 0
    rw [hdm]
    have hrho : (m * rho + 0 * rho) / (m + 0) = rho := by
      field_simp
    rw [hrho]
    simp

/-- Witness for the amended C2 at a concrete horizontal state. -/
theorem C2_amended_witness :
    (0 : ℝ) < 1 ∧ vel 1 0 0 ≠ 0 ∧
    (pipe_discharge_single_timestep 1 0 1 1 1000 1 0 0 1 1 0 0 0 1 0 1000).m_new = 1 := by
  have hv : vel 1 0 0 ≠ 0 := by
    simp [vel]
  exact ⟨by norm_num, hv, (C2_amended 1 0 1 1 1000 1 0 1 1 0 0 0 (by norm_num) hv).1⟩

/-- Claim C2 (counterexample): at a state with nonzero vertical velocity,
matching the ambient sample to the jet's horizontal velocity and density does
not keep the mass constant, because the ambient vertical velocity is fixed at
zero and `delta_u = w²∕vel ≠ 0`. -/
theorem C2_counterexample :
    (0 : ℝ) < 1 ∧ vel 1 0 1 ≠ 0 ∧
    (pipe_discharge_single_timestep 1 0 1 1 1000 1 0 1 1 1 0 0 0 1 0 1000).m_new ≠ 1 := by
  have hvel : vel 1 0 1 = Real.sqrt 2 := by norm_num [vel]
  have hδ : delta_u 1 0 1 1 0 = Real.sqrt 2 - 1 / Real.sqrt 2 := by
    norm_num [delta_u, wa, vel]
  have hδpos : 0 < delta_u 1 0 1 1 0 := by
    rw [hδ]
    have h1 : 1 / Real.sqrt 2 < Real.sqrt 2 := by
      rw [div_lt_iff₀ sqrt_two_pos]
      nlinarith [sqrt_two_mul_self]
    linarith
  have hdmpos : 0 < dm 1 1 0 1 1 1 1 0 := by
    unfold dm
    have hA : (0 : ℝ) < 2 * Real.pi * alpha_s * 1 * 1 := by
      unfold alpha_s
      positivity
    have := mul_pos (mul_pos hA hδpos) one_pos
    linarith
  refine ⟨by norm_num, by rw [hvel]; exact ne_of_gt sqrt_two_pos, ?_⟩
  show (1 : ℝ) + dm 1 1 0 1 1 1 1 0 ≠ 1
  have : (1 : ℝ) < 1 + dm 1 1 0 1 1 1 1 0 := by linarith
  exact ne_of_gt this

/-- Claim C1 (code evaluation): at the state `m = 2, w = 1` with jet density
equal to ambient density, the code returns `w_new = m·w = 2` — the vertical
momentum is not divided by `new_mass`, so the value the claim's formula gives,
`(m·w)∕new_mass = 2∕new_mass`, differs from the returned `w_new = 2`. -/
theorem C1_code_eval :
    (pipe_discharge_single_timestep 1 0 2 1 1000 1 0 1 1 1 0 0 0 0 0 1000).w_new = 2 ∧
    (2 : ℝ) / (pipe_discharge_single_timestep 1 0 2 1 1000 1 0 1 1 1 0 0 0 0 0 1000).m_new
      ≠ (pipe_discharge_single_timestep 1 0 2 1 1000 1 0 1 1 1 0 0 0 0 0 1000).w_new := by
  have hδ : delta_u 1 0 1 0 0 = Real.sqrt 2 := by
    norm_num [delta_u, wa, vel]
  have hdmpos : 0 < dm 1 1 0 1 1 1 0 0 := by
    unfold dm
    rw [hδ]
    unfold alpha_s
    positivity
  have hne : (2 : ℝ) + dm 1 1 0 1 1 1 0 0 ≠ 0 := by positivity
  have hrho : ((2 : ℝ) * 1000 + dm 1 1 0 1 1 1 0 0 * 1000) / (2 + dm 1 1 0 1 1 1 0 0)
      = 1000 := by
    field_simp
    ring
  have hw : (pipe_discharge_single_timestep 1 0 2 1 1000 1 0 1 1 1 0 0 0 0 0 1000).w_new
      = 2 := by
    show (2 : ℝ) * 1 + (2 + dm 1 1 0 1 1 1 0 0) *
        ((((2 : ℝ) * 1000 + dm 1 1 0 1 1 1 0 0 * 1000) / (2 + dm 1 1 0 1 1 1 0 0) - 1000) /
          (((2 : ℝ) * 1000 + dm 1 1 0 1 1 1 0 0 * 1000) / (2 + dm 1 1 0 1 1 1 0 0)))
        * g * 1 = 2
    rw [hrho]
    norm_num
  refine ⟨hw, ?_⟩
  rw [hw]
  show (2 : ℝ) / (2 + dm 1 1 0 1 1 1 0 0) ≠ 2
  have hlt : (2 : ℝ) / (2 + dm 1 1 0 1 1 1 0 0) < 1 := by
    rw [div_lt_one (by linarith)]
    linarith
  linarith [hlt]

/-- Claim C3 (code evaluation): at a state where the ambient flow outruns the
jet (`delta_u = −99`), the step returns a strictly negative mass instead of
failing: the code contains no validity check on `new_mass`. -/
theorem C3_code_eval :
    (pipe_discharge_single_timestep 1 0 1 1 1000 1 0 0 1 1 0 0 0 100 0 1000).m_new < 0 := by
  have hδ : delta_u 1 0 0 100 0 = -99 := by
    norm_num [delta_u, wa, vel]
  show (1 : ℝ) + dm 1 1 0 0 1 1 100 0 < 0
  have hone : (1 : ℝ) ≤ Real.sqrt 2 := by
    nlinarith [sqrt_two_mul_self, Real.sqrt_nonneg 2]
  have hdm : dm 1 1 0 0 1 1 100 0 = 2 * Real.pi * (Real.sqrt 2 * 0.057) * (-99) := by
    unfold dm alpha_s
    rw [hδ]
    ring
  rw [hdm]
  nlinarith [Real.pi_gt_three, hone]

/-- Claim C4 (code evaluation): at an at-rest state the jet speed `vel` is
exactly 0, so the code divides by zero when forming `delta_u`; the function
has no error path and returns a full state (in the real-valued model, where
division by zero yields 0, the returned mass equals the input mass; in IEEE
floating point the same division produces NaN, which then propagates). -/
theorem C4_code_eval :
    vel 0 0 0 = 0 ∧
    (pipe_discharge_single_timestep 1 0 1 1 1000 0 0 0 1 1 0 0 0 0 0 1000).m_new = 1 := by
  have hvel : vel 0 0 0 = 0 := by
    norm_num [vel]
  have hδ : delta_u 0 0 0 0 0 = 0 := by
    norm_num [delta_u, wa, vel]
  have hdm : dm 1 0 0 0 1 1 0 0 = 0 := by
    unfold dm
    rw [hδ]
    ring
  refine ⟨hvel, ?_⟩
  show (1 : ℝ) + dm 1 0 0 0 1 1 0 0 = 1
  rw [hdm]
  ring

/-- Claim C8: for the spec's scenario (`mass = 100`, `density = 1025`,
`velocity = (1,0,0)`, `thickness = 1`, `radius = 0.178`, still ambient of
density 1000, `dt = 1`), the entrained mass is about 0.0902, the new mass is
about 100.09, and the new density lies strictly between 1000 and 1025. -/
theorem C8_scenario :
    (0.0901 < dm 1 1 0 0 1 0.178 0 0 ∧ dm 1 1 0 0 1 0.178 0 0 < 0.0903) ∧
    (100.0901 <
        (pipe_discharge_single_timestep 1 0 100 1 1025 1 0 0 1 0.178 0 0 0 0 0 1000).m_new ∧
      (pipe_discharge_single_timestep 1 0 100 1 1025 1 0 0 1 0.178 0 0 0 0 0 1000).m_new
        < 100.0903) ∧
    (1000 <
        (pipe_discharge_single_timestep 1 0 100 1 1025 1 0 0 1 0.178 0 0 0 0 0 1000).rho_new ∧
      (pipe_discharge_single_timestep 1 0 100 1 1025 1 0 0 1 0.178 0 0 0 0 0 1000).rho_new
        < 1025) := by
  have hδ : delta_u 1 0 0 0 0 = 1 := by
    norm_num [delta_u, wa, vel]
  have hdm_eq : dm 1 1 0 0 1 0.178 0 0 = 2 * Real.pi * (Real.sqrt 2 * 0.057) * 0.178 := by
    unfold dm alpha_s
    rw [hδ]
    ring
  have hπpos := Real.pi_pos
  have hsp_lo : (4.4422 : ℝ) < Real.sqrt 2 * Real.pi := by
    nlinarith [sqrt_two_gt, Real.pi_gt_d6, hπpos]
  have hsp_hi : Real.sqrt 2 * Real.pi < 4.4454 := by
    nlinarith [sqrt_two_lt, Real.pi_lt_d6, hπpos, Real.sqrt_nonneg 2]
  have hdm_lo : (0.0901 : ℝ) < dm 1 1 0 0 1 0.178 0 0 := by
    rw [hdm_eq]
    nlinarith [hsp_lo]
  have hdm_hi : dm 1 1 0 0 1 0.178 0 0 < 0.0903 := by
    rw [hdm_eq]
    nlinarith [hsp_hi]
  refine ⟨⟨hdm_lo, hdm_hi⟩, ⟨?_, ?_⟩, ?_, ?_⟩
  · show (100.0901 : ℝ) < 100 + dm 1 1 0 0 1 0.178 0 0
    linarith
  · show (100 : ℝ) + dm 1 1 0 0 1 0.178 0 0 < 100.0903
    linarith
  · show (1000 : ℝ) <
      (100 * 1025 + dm 1 1 0 0 1 0.178 0 0 * 1000) / (100 + dm 1 1 0 0 1 0.178 0 0)
    rw [lt_div_iff₀ (by linarith)]
    nlinarith [hdm_lo]
  · show (100 * 1025 + dm 1 1 0 0 1 0.178 0 0 * 1000) / (100 + dm 1 1 0 0 1 0.178 0 0)
      < (1025 : ℝ)
    rw [div_lt_iff₀ (by linarith)]
    nlinarith [hdm_lo]

end Effluent
